import Mathlib

/-!
Verification of the approval-gated, suspend/resume shipping workflow of
`my_google_agent`, together with its remote health-check client.

The gated rule itself lives in `src/shipping_agent/tools.py`
(`place_shipping_order`), the approval detection and resume-message
construction in `src/shipping_agent/workflow.py`, and the remote health
check in `src/customer_support_client.py`.  The checkpoint store and
`submit` / `resume` executor are provided by the external ADK framework
and are therefore modelled from the specification.
-/

namespace MyGoogleAgent

/-! ## Embedding of src/shipping_agent/tools.py -/

/-- The confirmation result attached to the tool context on a resumed call
(`tool_context.tool_confirmation` in the source). -/
structure ToolConfirmation where
  confirmed : Bool
  deriving Repr, DecidableEq

/-- The confirmation request emitted by `tool_context.request_confirmation`:
a human-readable hint plus the structured payload
`{num_containers, destination}` from tools.py lines 46-49. -/
structure ConfirmationRequest where
  hint : String
  payload_num_containers : Int
  payload_destination : String
  deriving Repr, DecidableEq

/-- The ADK tool context as visible to `place_shipping_order`.  The source
function reads only `tool_confirmation`; the remaining fields model the
ambient context (session state, invocation id) that the tool never touches,
so that purity of the gated rule is a provable statement. -/
structure ToolContext where
  tool_confirmation : Option ToolConfirmation
  state : List (String × String)
  invocation_id : String
  deriving Repr, DecidableEq

/-- The dictionary returned by `place_shipping_order`.  Keys present only in
some branches of the source are modelled as `Option` fields. -/
structure OrderResult where
  status : String
  order_id : Option String
  num_containers : Option Int
  destination : Option String
  message : String
  deriving Repr, DecidableEq

/-- tools.py line 6. -/
def LARGE_ORDER_THRESHOLD : Int := 5

/-- Embedding of `place_shipping_order` (tools.py lines 8-76).  The side
effect of `tool_context.request_confirmation` is made explicit as the second
component: `some req` iff the source would call `request_confirmation`. -/
def place_shipping_order (num_containers : Int) (destination : String)
    (tool_context : ToolContext) : OrderResult × Option ConfirmationRequest :=
  if num_containers ≤ LARGE_ORDER_THRESHOLD then
    ({ status := "approved"
       order_id := some ("ORD-" ++ toString num_containers ++ "-AUTO")
       num_containers := some num_containers
       destination := some destination
       message := "Order auto-approved: " ++ toString num_containers ++
         " containers to " ++ destination }, none)
  else
    match tool_context.tool_confirmation with
    | none =>
      ({ status := "pending"
         order_id := none
         num_containers := none
         destination := none
         message := "Order for " ++ toString num_containers ++
           " containers requires approval" },
       some { hint := "⚠️ Large order: " ++ toString num_containers ++
                " containers to " ++ destination ++ ". Do you want to approve?"
              payload_num_containers := num_containers
              payload_destination := destination })
    | some conf =>
      if conf.confirmed then
        ({ status := "approved"
           order_id := some ("ORD-" ++ toString num_containers ++ "-HUMAN")
           num_containers := some num_containers
           destination := some destination
           message := "Order approved: " ++ toString num_containers ++
             " containers to " ++ destination }, none)
      else
        ({ status := "rejected"
           order_id := none
           num_containers := none
           destination := none
           message := "Order rejected: " ++ toString num_containers ++
             " containers to " ++ destination }, none)

/-! ## Spec-modelled task executor

The checkpoint store and the `submit` / `resume` executor are implemented by
the external ADK framework (resumable `App` plus `Runner`), whose code is not
part of this repository; they are modelled here from the specification
(sections 3, 4.1, 4.3, 4.4), with `place_shipping_order` as the gated
invocation. -/

/-- Modelled from the spec: the task status set of section 3. -/
inductive TaskStatus
  | running
  | suspended
  | completed
  | rejected
  | failed
  deriving Repr, DecidableEq

/-- One gated invocation request: the business payload
"ship N containers to destination D". -/
structure Order where
  num_containers : Int
  destination : String
  deriving Repr, DecidableEq

/-- Modelled from the spec: a Task record of the Task Store.  `remaining`
holds the gated invocations still to be executed after the current
suspension point. -/
structure Task where
  task_id : String
  status : TaskStatus
  remaining : List Order
  deriving Repr, DecidableEq

/-- Modelled from the spec: a Checkpoint record (section 3): correlation id
minted at suspension time, owning task, hint and the immutable request
payload of the gated invocation. -/
structure Checkpoint where
  correlation_id : Nat
  task_id : String
  hint : String
  payload : Order
  deriving Repr, DecidableEq

/-- Modelled from the spec: the Task Store, the single shared mutable
resource.  `nextCid` is the mint for fresh correlation ids. -/
structure Store where
  tasks : List Task
  checkpoints : List Checkpoint
  nextCid : Nat
  deriving Repr, DecidableEq

/-- Modelled from the spec: the error taxonomy of section 7 restricted to
what `submit` / `resume` can surface. -/
inductive ExecErr
  | duplicateTask
  | unknownCorrelation
  | notFound
  deriving Repr, DecidableEq

/-- Modelled from the spec: `ExecutionOutcome` of section 4.4.  `done`
carries the result of the last gated invocation (none for an empty task). -/
inductive ExecutionOutcome
  | done (result : Option OrderResult)
  | pending (correlation_id : Nat) (hint : String)
  | failed (err : ExecErr)
  deriving Repr, DecidableEq

/-- A tool context carrying no decision: the state of the first call. -/
def freshContext : ToolContext :=
  { tool_confirmation := none, state := [], invocation_id := "" }

/-- Outcome of running a list of gated invocations with no decision
attached: either all complete, or execution suspends at the first
invocation that requests confirmation. -/
inductive StepsOutcome
  | completedAll (last : Option OrderResult)
  | suspendAt (req : ConfirmationRequest) (current : Order) (rest : List Order)
  deriving Repr, DecidableEq

/-- Modelled from the spec: run gated invocations in order via
`place_shipping_order`, stopping at the first one that requests
confirmation (spec section 4.4, `submit` step 3). -/
def runSteps : List Order → Option OrderResult → StepsOutcome
  | [], last => .completedAll last
  | o :: rest, _ =>
    match place_shipping_order o.num_containers o.destination freshContext with
    | (res, none) => runSteps rest (some res)
    | (_, some req) => .suspendAt req o rest
  termination_by steps _ => steps.length

/-- Modelled from the spec: `submit(task_id, payload)` of section 4.4.
Creates the task, runs the gated invocations; on the first suspension it
persists a checkpoint with a freshly minted correlation id, marks the task
`suspended` and returns `Pending`; otherwise marks it `completed` and
returns `Done`. -/
def submit (task_id : String) (payload : List Order) (s : Store) :
    ExecutionOutcome × Store :=
  if s.tasks.any (fun t => t.task_id == task_id) then
    (.failed .duplicateTask, s)
  else
    match runSteps payload none with
    | .completedAll last =>
      (.done last,
       { s with tasks := s.tasks ++ [⟨task_id, .completed, []⟩] })
    | .suspendAt req _ rest =>
      (.pending s.nextCid req.hint,
       { tasks := s.tasks ++ [⟨task_id, .suspended, rest⟩]
         checkpoints := s.checkpoints ++
           [⟨s.nextCid, task_id, req.hint,
             ⟨req.payload_num_containers, req.payload_destination⟩⟩]
         nextCid := s.nextCid + 1 })

/-- Update the status and remaining steps of the task named `tid`. -/
def setStatus (tasks : List Task) (tid : String) (st : TaskStatus)
    (rem : List Order) : List Task :=
  tasks.map (fun t =>
    if t.task_id == tid then { t with status := st, remaining := rem } else t)

/-- Modelled from the spec: `resume(correlation_id, approved)` of section
4.4.  Atomically claims (retrieves and destroys) the checkpoint — yielding
`UnknownCorrelation` if none matches — reloads the owning task, re-runs the
gated invocation with the decision attached, and continues with the
remaining steps, which may suspend again with a fresh correlation id. -/
def resume (cid : Nat) (approved : Bool) (s : Store) :
    ExecutionOutcome × Store :=
  match s.checkpoints.find? (fun c => c.correlation_id == cid) with
  | none => (.failed .unknownCorrelation, s)
  | some c =>
    let checkpoints1 := s.checkpoints.filter (fun k => k.correlation_id != cid)
    match s.tasks.find? (fun t => t.task_id == c.task_id) with
    | none => (.failed .notFound, { s with checkpoints := checkpoints1 })
    | some t =>
      let ctx : ToolContext :=
        { tool_confirmation := some ⟨approved⟩, state := [], invocation_id := "" }
      let res := (place_shipping_order c.payload.num_containers
        c.payload.destination ctx).1
      if res.status == "rejected" then
        (.done (some res),
         { s with checkpoints := checkpoints1
                  tasks := setStatus s.tasks c.task_id .rejected [] })
      else
        match runSteps t.remaining (some res) with
        | .completedAll last =>
          (.done last,
           { s with checkpoints := checkpoints1
                    tasks := setStatus s.tasks c.task_id .completed [] })
        | .suspendAt req _ rest =>
          (.pending s.nextCid req.hint,
           { tasks := setStatus s.tasks c.task_id .suspended rest
             checkpoints := checkpoints1 ++
               [⟨s.nextCid, c.task_id, req.hint,
                 ⟨req.payload_num_containers, req.payload_destination⟩⟩]
             nextCid := s.nextCid + 1 })

/-- Well-formed store: every stored correlation id is below the mint, so
freshly minted ids never collide with live checkpoints. -/
def StoreWF (s : Store) : Prop :=
  ∀ c ∈ s.checkpoints, c.correlation_id < s.nextCid

instance : DecidablePred StoreWF := fun s =>
  inferInstanceAs (Decidable (∀ c ∈ s.checkpoints, c.correlation_id < s.nextCid))

/-! ## Embedding of src/shipping_agent/workflow.py -/

/-- A function call carried by an event part (`google.genai.types`).  The
`args` dictionary is only passed through, modelled as an association list. -/
structure FunctionCall where
  id : String
  name : String
  args : List (String × String)
  deriving Repr, DecidableEq

/-- A function response part, as built by `create_approval_response`.  The
`response` dictionary maps keys to booleans (the source puts exactly
`confirmed` in it). -/
structure FunctionResponse where
  id : String
  name : String
  response : List (String × Bool)
  deriving Repr, DecidableEq

/-- One part of an event content. -/
structure Part where
  text : Option String
  function_call : Option FunctionCall
  function_response : Option FunctionResponse
  deriving Repr, DecidableEq

/-- An event content: a role and a list of parts. -/
structure Content where
  role : String
  parts : List Part
  deriving Repr, DecidableEq

/-- An event of the event stream of the runner, with the invocation id the
workflow saves for resumption. -/
structure Event where
  invocation_id : String
  content : Option Content
  deriving Repr, DecidableEq

/-- The dictionary `check_for_approval` returns on success
(workflow.py lines 24-28). -/
structure ApprovalInfo where
  approval_id : String
  invocation_id : String
  args : List (String × String)
  deriving Repr, DecidableEq

/-- Inner loop of `check_for_approval` (workflow.py lines 18-23): the first
part whose `function_call` is present and named `adk_request_confirmation`. -/
def findConfirmationPart : List Part → Option FunctionCall
  | [] => none
  | p :: ps =>
    match p.function_call with
    | some fc =>
      if fc.name == "adk_request_confirmation" then some fc
      else findConfirmationPart ps
    | none => findConfirmationPart ps

/-- Embedding of `check_for_approval` (workflow.py lines 13-30): scan the
events in order; on the first part carrying an `adk_request_confirmation`
function call, return its id, the invocation id of the owning event, and its
args.  An event with no content (or an empty parts list, which the inner
scan handles identically) is skipped. -/
def check_for_approval : List Event → Option ApprovalInfo
  | [] => none
  | e :: es =>
    match e.content with
    | none => check_for_approval es
    | some c =>
      match findConfirmationPart c.parts with
      | some fc => some ⟨fc.id, e.invocation_id, fc.args⟩
      | none => check_for_approval es

/-- Embedding of `create_approval_response` (workflow.py lines 32-43): a
user-role content with a single function-response part echoing the approval
id and carrying the decision under the `confirmed` key. -/
def create_approval_response (approval_info : ApprovalInfo) (approved : Bool) :
    Content :=
  { role := "user"
    parts := [{ text := none
                function_call := none
                function_response := some
                  { id := approval_info.approval_id
                    name := "adk_request_confirmation"
                    response := [("confirmed", approved)] } }] }

/-- The arguments of the second `shipping_runner.run_async` call of
`run_shipping_workflow` (workflow.py lines 99-106). -/
structure ResumeCall where
  user_id : String
  session_id : String
  new_message : Content
  invocation_id : String
  deriving Repr, DecidableEq

/-- Embedding of the resume decision of `run_shipping_workflow`
(workflow.py lines 84-106): after the first run produced `events`, the
workflow issues exactly one resume call — against the same session, with the
saved invocation id and the constructed approval response — iff
`check_for_approval` detected a suspension, and no resume call otherwise. -/
def shipping_resume_call (session_id : String) (events : List Event)
    (auto_approve : Bool) : Option ResumeCall :=
  match check_for_approval events with
  | some info =>
    some { user_id := "test_user"
           session_id := session_id
           new_message := create_approval_response info auto_approve
           invocation_id := info.invocation_id }
  | none => none

/-- The parts of the events, each tagged with the invocation id of its event, in
stream order.  Reference order for the first-match characterization of
`check_for_approval`. -/
def annotatedParts : List Event → List (String × Part)
  | [] => []
  | e :: es =>
    (match e.content with
     | some c => c.parts.map (fun p => (e.invocation_id, p))
     | none => []) ++ annotatedParts es

/-- Whether a part carries a function call named `adk_request_confirmation`. -/
def isConfirmationCall (p : Part) : Bool :=
  match p.function_call with
  | some fc => fc.name == "adk_request_confirmation"
  | none => false

/-- Declarative first-match description of `check_for_approval`: the first
confirmation-call part over all events, in order. -/
def check_for_approval_spec (events : List Event) : Option ApprovalInfo :=
  match (annotatedParts events).find? (fun ip => isConfirmationCall ip.2) with
  | some (inv, p) =>
    match p.function_call with
    | some fc => some ⟨fc.id, inv, fc.args⟩
    | none => none
  | none => none

/-! ## Embedding of src/customer_support_client.py -/

/-- Outcome of the `session.get(url)` attempt inside `check_remote_service`:
either a response with an HTTP status code, or a raised exception. -/
inductive HttpOutcome
  | response (status : Nat)
  | failure (msg : String)
  deriving Repr, DecidableEq

/-- Embedding of `check_remote_service` (customer_support_client.py lines
37-51): true iff the request yields a response with status 200; any other
status or any exception yields false. -/
def check_remote_service : HttpOutcome → Bool
  | .response s => s == 200
  | .failure _ => false

/-- The observable steps of `run_customer_support_flow` that touch task or
session state. -/
inductive FlowStep
  | createSession (app_name : String) (user_id : String) (session_id : String)
  | runAgent (user_id : String) (session_id : String) (query : String)
  deriving Repr, DecidableEq

/-- Embedding of the control flow of `run_customer_support_flow`
(customer_support_client.py lines 54-125): if the pre-flight health check
fails the function returns immediately — before the session service, the
session, or the runner is created; otherwise it creates the session and runs
the agent. -/
def run_customer_support_flow (health : HttpOutcome) (session_id : String)
    (user_query : String) : List FlowStep :=
  if check_remote_service health then
    [.createSession "support_cli_app" "cli_user" session_id,
     .runAgent "cli_user" session_id user_query]
  else []

/-! ## Theorems -/

/-- C1: with at most 5 containers the gated invocation auto-approves — the
result has status `approved` and order id `ORD-{n}-AUTO`, no confirmation is
requested (whatever decision state the context carries), `submit` completes
directly, and the checkpoint store is left untouched. -/
theorem C1_small_order_auto_approves (n : Int) (d : String)
    (ctx : ToolContext) (tid : String) (s : Store)
    (hn : n ≤ LARGE_ORDER_THRESHOLD)
    (hfresh : s.tasks.any (fun t => t.task_id == tid) = false) :
    (place_shipping_order n d ctx).1.status = "approved" ∧
    (place_shipping_order n d ctx).1.order_id =
      some ("ORD-" ++ toString n ++ "-AUTO") ∧
    (place_shipping_order n d ctx).2 = none ∧
    (submit tid [⟨n, d⟩] s).1 =
      .done (some (place_shipping_order n d freshContext).1) ∧
    (submit tid [⟨n, d⟩] s).2.checkpoints = s.checkpoints := by
  simp [place_shipping_order, submit, runSteps, hn, hfresh]

/-- C1 witness: the gated invocation for 3 containers to Singapore
auto-approves even with a (stale) rejection attached to the context, and
`submit` on an empty store creates no checkpoint. -/
theorem C1_witness :
    (place_shipping_order 3 "Singapore" ⟨some ⟨false⟩, [], "inv"⟩).1.status =
      "approved" ∧
    (place_shipping_order 3 "Singapore" ⟨some ⟨false⟩, [], "inv"⟩).1.order_id =
      some ("ORD-" ++ toString (3 : Int) ++ "-AUTO") ∧
    (place_shipping_order 3 "Singapore" ⟨some ⟨false⟩, [], "inv"⟩).2 = none ∧
    (submit "T1" [⟨3, "Singapore"⟩] ⟨[], [], 0⟩).1 =
      .done (some (place_shipping_order 3 "Singapore" freshContext).1) ∧
    (submit "T1" [⟨3, "Singapore"⟩] ⟨[], [], 0⟩).2.checkpoints =
      (⟨[], [], 0⟩ : Store).checkpoints :=
  C1_small_order_auto_approves 3 "Singapore" ⟨some ⟨false⟩, [], "inv"⟩ "T1"
    ⟨[], [], 0⟩ (by decide) rfl

/-- C2: with more than 5 containers and no decision attached, the gated
invocation suspends — exactly one confirmation is requested, whose payload
is the container count and destination and whose hint mentions both, and the
invocation returns a pending (not completed) result. -/
theorem C2_large_order_suspends (n : Int) (d : String) (ctx : ToolContext)
    (hn : LARGE_ORDER_THRESHOLD < n)
    (hc : ctx.tool_confirmation = none) :
    (place_shipping_order n d ctx).1.status = "pending" ∧
    ∃ req, (place_shipping_order n d ctx).2 = some req ∧
      req.payload_num_containers = n ∧
      req.payload_destination = d ∧
      ∃ a b c, req.hint = a ++ toString n ++ b ++ d ++ c := by
  have hn' : ¬ n ≤ LARGE_ORDER_THRESHOLD := not_le.mpr hn
  refine ⟨by simp [place_shipping_order, hn', hc],
    ⟨"⚠️ Large order: " ++ toString n ++ " containers to " ++ d ++
      ". Do you want to approve?", n, d⟩,
    by simp [place_shipping_order, hn', hc], rfl, rfl,
    "⚠️ Large order: ", " containers to ", ". Do you want to approve?", rfl⟩

/-- C2 witness: ordering 10 containers to Rotterdam with a fresh context
requests exactly one confirmation and returns a pending result. -/
theorem C2_witness :
    (place_shipping_order 10 "Rotterdam" freshContext).1.status = "pending" ∧
    ∃ req, (place_shipping_order 10 "Rotterdam" freshContext).2 = some req ∧
      req.payload_num_containers = 10 ∧
      req.payload_destination = "Rotterdam" ∧
      ∃ a b c, req.hint = a ++ toString (10 : Int) ++ b ++ "Rotterdam" ++ c :=
  C2_large_order_suspends 10 "Rotterdam" freshContext (by decide) rfl

/-- C6: the gated rule is a pure function of the parameters of the invocation and
the attached decision state — two contexts agreeing on `tool_confirmation`
yield identical results (and identical confirmation requests), whatever
their other ambient fields hold. -/
theorem C6_gated_rule_pure (n : Int) (d : String) (ctx1 ctx2 : ToolContext)
    (h : ctx1.tool_confirmation = ctx2.tool_confirmation) :
    place_shipping_order n d ctx1 = place_shipping_order n d ctx2 := by
  simp only [place_shipping_order, h]

/-- C6 witness: two invocations for 10 containers to Rotterdam with the same
approval decision but different ambient session state and invocation ids
produce the same result. -/
theorem C6_witness :
    place_shipping_order 10 "Rotterdam" ⟨some ⟨true⟩, [("k", "v")], "inv1"⟩ =
    place_shipping_order 10 "Rotterdam" ⟨some ⟨true⟩, [], "inv2"⟩ :=
  C6_gated_rule_pure 10 "Rotterdam" ⟨some ⟨true⟩, [("k", "v")], "inv1"⟩
    ⟨some ⟨true⟩, [], "inv2"⟩ rfl

/-- C3: a suspended gated invocation resumed with an approving decision
completes: the result has status `approved` and order id `ORD-{n}-HUMAN`
with `n` the container count of the original suspended invocation, and the
task ends `completed`. -/
theorem C3_resume_approved (n : Int) (d : String) (tid : String)
    (hn : LARGE_ORDER_THRESHOLD < n) :
    (∃ hint, (submit tid [⟨n, d⟩] ⟨[], [], 0⟩).1 = .pending 0 hint) ∧
    (resume 0 true (submit tid [⟨n, d⟩] ⟨[], [], 0⟩).2).1 =
      .done (some
        { status := "approved"
          order_id := some ("ORD-" ++ toString n ++ "-HUMAN")
          num_containers := some n
          destination := some d
          message := "Order approved: " ++ toString n ++
            " containers to " ++ d }) ∧
    (resume 0 true (submit tid [⟨n, d⟩] ⟨[], [], 0⟩).2).2.tasks =
      [⟨tid, .completed, []⟩] ∧
    (resume 0 true (submit tid [⟨n, d⟩] ⟨[], [], 0⟩).2).2.checkpoints = [] := by
  have hn' : ¬ n ≤ LARGE_ORDER_THRESHOLD := not_le.mpr hn
  simp [submit, runSteps, place_shipping_order, resume, setStatus,
    freshContext, hn']

/-- C3 witness: the suspended order of 10 containers to Rotterdam, resumed
with approval, completes with order id `ORD-10-HUMAN`. -/
theorem C3_witness :
    (∃ hint, (submit "T2" [⟨10, "Rotterdam"⟩] ⟨[], [], 0⟩).1 =
      .pending 0 hint) ∧
    (resume 0 true (submit "T2" [⟨10, "Rotterdam"⟩] ⟨[], [], 0⟩).2).1 =
      .done (some
        { status := "approved"
          order_id := some ("ORD-" ++ toString (10 : Int) ++ "-HUMAN")
          num_containers := some 10
          destination := some "Rotterdam"
          message := "Order approved: " ++ toString (10 : Int) ++
            " containers to " ++ "Rotterdam" }) ∧
    (resume 0 true (submit "T2" [⟨10, "Rotterdam"⟩] ⟨[], [], 0⟩).2).2.tasks =
      [⟨"T2", .completed, []⟩] ∧
    (resume 0 true (submit "T2" [⟨10, "Rotterdam"⟩] ⟨[], [], 0⟩).2).2.checkpoints
      = [] :=
  C3_resume_approved 10 "Rotterdam" "T2" (by decide)

/-- C4: a suspended gated invocation resumed with a declining decision ends
in a rejection outcome — result status `rejected` and task status
`rejected`, which is a normal terminal outcome distinct from both `failed`
and `completed`. -/
theorem C4_resume_declined (n : Int) (d : String) (tid : String)
    (hn : LARGE_ORDER_THRESHOLD < n) :
    (∃ hint, (submit tid [⟨n, d⟩] ⟨[], [], 0⟩).1 = .pending 0 hint) ∧
    (resume 0 false (submit tid [⟨n, d⟩] ⟨[], [], 0⟩).2).1 =
      .done (some
        { status := "rejected"
          order_id := none
          num_containers := none
          destination := none
          message := "Order rejected: " ++ toString n ++
            " containers to " ++ d }) ∧
    (resume 0 false (submit tid [⟨n, d⟩] ⟨[], [], 0⟩).2).2.tasks =
      [⟨tid, .rejected, []⟩] ∧
    TaskStatus.rejected ≠ TaskStatus.failed ∧
    TaskStatus.rejected ≠ TaskStatus.completed := by
  have hn' : ¬ n ≤ LARGE_ORDER_THRESHOLD := not_le.mpr hn
  refine ⟨?_, ?_, ?_, by decide, by decide⟩ <;>
    simp [submit, runSteps, place_shipping_order, resume, setStatus,
      freshContext, hn']

/-- C4 witness: the suspended order of 8 containers to Los Angeles, resumed
with a decline, ends rejected — not failed and not completed. -/
theorem C4_witness :
    (∃ hint, (submit "T3" [⟨8, "Los Angeles"⟩] ⟨[], [], 0⟩).1 =
      .pending 0 hint) ∧
    (resume 0 false (submit "T3" [⟨8, "Los Angeles"⟩] ⟨[], [], 0⟩).2).1 =
      .done (some
        { status := "rejected"
          order_id := none
          num_containers := none
          destination := none
          message := "Order rejected: " ++ toString (8 : Int) ++
            " containers to " ++ "Los Angeles" }) ∧
    (resume 0 false (submit "T3" [⟨8, "Los Angeles"⟩] ⟨[], [], 0⟩).2).2.tasks =
      [⟨"T3", .rejected, []⟩] ∧
    TaskStatus.rejected ≠ TaskStatus.failed ∧
    TaskStatus.rejected ≠ TaskStatus.completed :=
  C4_resume_declined 8 "Los Angeles" "T3" (by decide)

/-- C7: when the business logic after a resumption requires a further gated
step, the same suspend protocol applies again — after resuming the first
checkpoint, the next gated invocation suspends the task with a fresh
correlation id, the resumed call returns a pending outcome, and exactly one
live checkpoint remains (the new one; the resolved one is gone). -/
theorem C7_sequential_approvals (n1 n2 : Int) (d1 d2 tid : String)
    (h1 : LARGE_ORDER_THRESHOLD < n1) (h2 : LARGE_ORDER_THRESHOLD < n2) :
    ∃ hint1 hint2,
      (submit tid [⟨n1, d1⟩, ⟨n2, d2⟩] ⟨[], [], 0⟩).1 = .pending 0 hint1 ∧
      (resume 0 true
        (submit tid [⟨n1, d1⟩, ⟨n2, d2⟩] ⟨[], [], 0⟩).2).1 =
        .pending 1 hint2 ∧
      (resume 0 true
        (submit tid [⟨n1, d1⟩, ⟨n2, d2⟩] ⟨[], [], 0⟩).2).2.checkpoints =
        [⟨1, tid, hint2, ⟨n2, d2⟩⟩] ∧
      (resume 0 true
        (submit tid [⟨n1, d1⟩, ⟨n2, d2⟩] ⟨[], [], 0⟩).2).2.tasks =
        [⟨tid, .suspended, []⟩] := by
  have h1' : ¬ n1 ≤ LARGE_ORDER_THRESHOLD := not_le.mpr h1
  have h2' : ¬ n2 ≤ LARGE_ORDER_THRESHOLD := not_le.mpr h2
  simp [submit, runSteps, place_shipping_order, resume, setStatus,
    freshContext, h1', h2']

/-- C7 witness: a task with two large orders (10 then 8 containers)
suspends, and resuming the first approval immediately suspends again with a
fresh correlation id and exactly one live checkpoint. -/
theorem C7_witness :
    ∃ hint1 hint2,
      (submit "T4" [⟨10, "Rotterdam"⟩, ⟨8, "Hamburg"⟩] ⟨[], [], 0⟩).1 =
        .pending 0 hint1 ∧
      (resume 0 true
        (submit "T4" [⟨10, "Rotterdam"⟩, ⟨8, "Hamburg"⟩] ⟨[], [], 0⟩).2).1 =
        .pending 1 hint2 ∧
      (resume 0 true
        (submit "T4" [⟨10, "Rotterdam"⟩, ⟨8, "Hamburg"⟩]
          ⟨[], [], 0⟩).2).2.checkpoints =
        [⟨1, "T4", hint2, ⟨8, "Hamburg"⟩⟩] ∧
      (resume 0 true
        (submit "T4" [⟨10, "Rotterdam"⟩, ⟨8, "Hamburg"⟩]
          ⟨[], [], 0⟩).2).2.tasks =
        [⟨"T4", .suspended, []⟩] :=
  C7_sequential_approvals 10 8 "Rotterdam" "Hamburg" "T4" (by decide)
    (by decide)

/-- After a resume that found the checkpoint for `cid`, every live
checkpoint either survived the destructive filter (so its id differs from
`cid`) or is the freshly minted one (id `s.nextCid`). -/
theorem resume_checkpoint_ids (cid : Nat) (b : Bool) (s : Store)
    (c0 : Checkpoint)
    (hfind : s.checkpoints.find? (fun c => c.correlation_id == cid) = some c0) :
    ∀ k ∈ (resume cid b s).2.checkpoints,
      (k.correlation_id != cid) = true ∨ k.correlation_id = s.nextCid := by
  intro k hk
  unfold resume at hk
  rw [hfind] at hk
  dsimp only at hk
  split at hk <;> (try dsimp only at hk)
  · exact Or.inl (List.mem_filter.mp hk).2
  · split at hk <;> (try dsimp only at hk)
    · exact Or.inl (List.mem_filter.mp hk).2
    · split at hk <;> (try dsimp only at hk)
      · exact Or.inl (List.mem_filter.mp hk).2
      · rcases List.mem_append.mp hk with h | h
        · exact Or.inl (List.mem_filter.mp h).2
        · simp only [List.mem_singleton] at h
          exact Or.inr (by rw [h])

/-- A resume for a correlation id with no live checkpoint is answered
`UnknownCorrelation` and leaves the store untouched. -/
theorem resume_not_found (cid : Nat) (b : Bool) (s : Store)
    (h : s.checkpoints.find? (fun c => c.correlation_id == cid) = none) :
    resume cid b s = (.failed .unknownCorrelation, s) := by
  unfold resume
  rw [h]

/-- A resume that found a checkpoint for `cid` never reports
`UnknownCorrelation`. -/
theorem resume_found_not_unknown (cid : Nat) (b : Bool) (s : Store)
    (c0 : Checkpoint)
    (hfind : s.checkpoints.find? (fun c => c.correlation_id == cid) = some c0) :
    (resume cid b s).1 ≠ .failed .unknownCorrelation := by
  unfold resume
  rw [hfind]
  dsimp only
  split
  · simp
  · split
    · simp
    · split <;> simp

/-- C5: exactly-once resumption.  For a correlation id with a live
checkpoint, the first decision submission is never answered with
`UnknownCorrelation`, and any further submission for the same id is
answered with `UnknownCorrelation` and leaves the store untouched — so no
suspension is ever resumed twice. -/
theorem C5_resume_exactly_once (s : Store) (cid : Nat) (b1 b2 : Bool)
    (hwf : StoreWF s)
    (hmem : ∃ c ∈ s.checkpoints, c.correlation_id = cid) :
    (resume cid b1 s).1 ≠ .failed .unknownCorrelation ∧
    resume cid b2 (resume cid b1 s).2 =
      (.failed .unknownCorrelation, (resume cid b1 s).2) := by
  obtain ⟨c, hc, hcid⟩ := hmem
  have hsome : (s.checkpoints.find? (fun k => k.correlation_id == cid)).isSome := by
    rw [List.find?_isSome]
    exact ⟨c, hc, by simp [hcid]⟩
  obtain ⟨c0, hfind⟩ := Option.isSome_iff_exists.mp hsome
  have hmem0 : c0 ∈ s.checkpoints := List.mem_of_find?_eq_some hfind
  have hcid0 : c0.correlation_id = cid := by
    have h := List.find?_some hfind
    simpa using h
  have hlt : cid < s.nextCid := hcid0 ▸ hwf c0 hmem0
  refine ⟨resume_found_not_unknown cid b1 s c0 hfind, ?_⟩
  have hnone : (resume cid b1 s).2.checkpoints.find?
      (fun k => k.correlation_id == cid) = none := by
    rw [List.find?_eq_none]
    intro k hk
    rcases resume_checkpoint_ids cid b1 s c0 hfind k hk with h | h
    · simpa using h
    · simp only [beq_iff_eq, h]
      omega
  exact resume_not_found cid b2 _ hnone

/-- C5 witness: in a store holding the single live checkpoint `0` for a
suspended task, resuming `0` succeeds once, and the repeated submission of
the same correlation id is answered `UnknownCorrelation` without touching
the store. -/
theorem C5_witness :
    (resume 0 true
      ⟨[⟨"T2", .suspended, []⟩], [⟨0, "T2", "h", ⟨10, "Rotterdam"⟩⟩], 1⟩).1 ≠
      .failed .unknownCorrelation ∧
    resume 0 true (resume 0 true
      ⟨[⟨"T2", .suspended, []⟩], [⟨0, "T2", "h", ⟨10, "Rotterdam"⟩⟩], 1⟩).2 =
      (.failed .unknownCorrelation, (resume 0 true
        ⟨[⟨"T2", .suspended, []⟩], [⟨0, "T2", "h", ⟨10, "Rotterdam"⟩⟩],
          1⟩).2) :=
  C5_resume_exactly_once
    ⟨[⟨"T2", .suspended, []⟩], [⟨0, "T2", "h", ⟨10, "Rotterdam"⟩⟩], 1⟩ 0
    true true (by decide) ⟨⟨0, "T2", "h", ⟨10, "Rotterdam"⟩⟩, by decide, rfl⟩

/-- C8: the resume message is correlated to the exact suspension.  Whenever
the events of the first run contain a confirmation request, the workflow issues
exactly one resume call: against the same session, with the saved invocation
id, carrying a single function-response part whose id is the approval id
captured at suspension time, whose name is `adk_request_confirmation`, and
whose response maps `confirmed` to the submitted decision. -/
theorem C8_resume_message_correlated (events : List Event) (sid : String)
    (approved : Bool) (info : ApprovalInfo)
    (h : check_for_approval events = some info) :
    shipping_resume_call sid events approved = some
      { user_id := "test_user"
        session_id := sid
        new_message :=
          { role := "user"
            parts := [{ text := none
                        function_call := none
                        function_response := some
                          { id := info.approval_id
                            name := "adk_request_confirmation"
                            response := [("confirmed", approved)] } }] }
        invocation_id := info.invocation_id } := by
  simp [shipping_resume_call, h, create_approval_response]

/-- C8 witness: for an event stream containing one confirmation request with
function-call id `fc-1` raised in invocation `inv-1`, the resume call goes
to the same session `s-1` with invocation id `inv-1` and echoes id `fc-1`
and the decision `true` under `confirmed`. -/
theorem C8_witness :
    shipping_resume_call "s-1"
      [⟨"inv-1", some ⟨"model",
        [⟨none, some ⟨"fc-1", "adk_request_confirmation", [("k", "v")]⟩,
          none⟩]⟩⟩] true = some
      { user_id := "test_user"
        session_id := "s-1"
        new_message :=
          { role := "user"
            parts := [{ text := none
                        function_call := none
                        function_response := some
                          { id := "fc-1"
                            name := "adk_request_confirmation"
                            response := [("confirmed", true)] } }] }
        invocation_id := "inv-1" } :=
  C8_resume_message_correlated
    [⟨"inv-1", some ⟨"model",
      [⟨none, some ⟨"fc-1", "adk_request_confirmation", [("k", "v")]⟩,
        none⟩]⟩⟩] "s-1" true ⟨"fc-1", "inv-1", [("k", "v")]⟩ rfl

/-- C9: the remote health check returns true exactly on an HTTP 200 response
(any other status, and any exception, yields false), and a false health
check short-circuits the customer-support flow — no session is created and
the agent never runs. -/
theorem C9_health_check_gates_flow (h : HttpOutcome) (sid q : String) :
    (check_remote_service h = true ↔ h = .response 200) ∧
    (run_customer_support_flow h sid q = [] ↔
      check_remote_service h = false) := by
  constructor
  · cases h with
    | response s => simp [check_remote_service]
    | failure m => simp [check_remote_service]
  · cases hcv : check_remote_service h <;>
      simp [run_customer_support_flow, hcv]

/-- The inner part scan of `check_for_approval` returns exactly the function
call of the first part satisfying `isConfirmationCall`. -/
theorem findConfirmationPart_eq_find? (ps : List Part) :
    findConfirmationPart ps =
      (ps.find? isConfirmationCall).bind (fun p => p.function_call) := by
  induction ps with
  | nil => rfl
  | cons p ps ih =>
    cases hfc : p.function_call with
    | none =>
      simp [findConfirmationPart, List.find?_cons, isConfirmationCall, hfc, ih]
    | some fc =>
      by_cases hname : fc.name == "adk_request_confirmation"
      · simp [findConfirmationPart, List.find?_cons, isConfirmationCall, hfc,
          hname]
      · simp [findConfirmationPart, List.find?_cons, isConfirmationCall, hfc,
          hname, ih]

/-- The detector `check_for_approval` equals its declarative first-match description. -/
theorem check_for_approval_eq_spec (events : List Event) :
    check_for_approval events = check_for_approval_spec events := by
  induction events with
  | nil => rfl
  | cons e es ih =>
    unfold check_for_approval check_for_approval_spec annotatedParts
    cases hc : e.content with
    | none =>
      simpa [check_for_approval_spec] using ih
    | some c =>
      dsimp only
      rw [findConfirmationPart_eq_find?, List.find?_append, List.find?_map]
      have hpred : ((fun ip => isConfirmationCall ip.2) ∘
          fun p => ((e.invocation_id, p) : String × Part)) =
          isConfirmationCall := rfl
      rw [hpred]
      cases hfind : c.parts.find? isConfirmationCall with
      | none =>
        simpa [check_for_approval_spec, Option.or] using ih
      | some p =>
        have hp : isConfirmationCall p = true := List.find?_some hfind
        cases hfc : p.function_call with
        | none => simp [isConfirmationCall, hfc] at hp
        | some fc => simp [Option.or, hfc]

/-- C10: the suspension detector returns the approval id, invocation id and
args of the first event part (scanning events, and parts within an event, in
order) carrying a function call named `adk_request_confirmation`; it returns
none when no such part exists — in particular on an empty event stream, in
which case the workflow issues no resume call at all. -/
theorem C10_first_confirmation_scan (events : List Event) (sid : String)
    (approve : Bool) :
    check_for_approval events = check_for_approval_spec events ∧
    check_for_approval ([] : List Event) = none ∧
    shipping_resume_call sid ([] : List Event) approve = none :=
  ⟨check_for_approval_eq_spec events, rfl, rfl⟩

end MyGoogleAgent
